import Mathlib

/-!
Verification of the story-to-scene pipeline backend.

Shallow embedding of the TypeScript backend of `story-to-scene-magic-08`:

* `GeminiVeo` — `GeminiVeoService` (`generateVideo`'s operation-polling loop,
  `generateVideoWithRetry`, `validateRequest`);
* `Processor` — `StoryProcessorService.processStory` / `regenerateSegment`
  (the variant driving `geminiVeo.generateVideo` per segment), modelled as a
  pure state transformer over the persisted story record, producing the
  chronological list of persisted saves;
* `FileStorage` — `sanitizeStoryName` / `sanitizeSectionName`;
* `VideosRoute` — the `GET /api/videos/:storyId/:segmentId` streaming handler.

External effects (the analyzer, the Veo API, the clock) are passed in as
explicit oracles; the file-system story record is passed as an explicit
`Option StoryData` value and each `saveStoryData` is recorded in a trace.
-/

/-- JavaScript whitespace (the class `\s`, which is also what `trim()`
strips): ASCII whitespace, NBSP, and the Unicode space separators, given by
code point. -/
def jsWhitespace (c : Char) : Bool :=
  decide ((9 ≤ c.toNat ∧ c.toNat ≤ 13) ∨ c.toNat = 32 ∨ c.toNat = 160 ∨
    c.toNat = 5760 ∨ (8192 ≤ c.toNat ∧ c.toNat ≤ 8202) ∨ c.toNat = 8232 ∨
    c.toNat = 8233 ∨ c.toNat = 8239 ∨ c.toNat = 8287 ∨ c.toNat = 12288 ∨
    c.toNat = 65279)

namespace GeminiVeo

/-- Shape of `GeminiVeoResponse`: either a success carrying the downloaded
video's path and URL, or a failure result carrying an error message. -/
structure GeminiVeoResponse where
  success : Bool
  videoPath : Option String := none
  videoUrl : Option String := none
  error : Option String := none
  deriving Repr, DecidableEq

/-- Shape of `GeminiVeoRequest` (the fields `validateRequest` inspects).
`duration` is an `Option Int`: absent, or a number of seconds. -/
structure GeminiVeoRequest where
  prompt : String
  duration : Option Int := none
  deriving Repr, DecidableEq

/-- JavaScript `a || b` on an optional string: the default is used when the
value is absent or is the empty string (both falsy). -/
def jsOrElse (o : Option String) (d : String) : String :=
  match o with
  | none => d
  | some s => if s = "" then d else s

/-- `validateRequest`: rejects an absent/blank prompt, a prompt longer than
2000 characters, and a (truthy, i.e. nonzero) duration outside 1..60.
`prompt.trim().length === 0` holds exactly when every character of the
prompt is whitespace, which is how the blank check is rendered here. -/
def validateRequest (r : GeminiVeoRequest) : Bool × Option String :=
  if r.prompt = "" ∨ r.prompt.data.all jsWhitespace then
    (false, some ("Prompt is required"))
  else if r.prompt.length > 2000 then
    (false, some ("Prompt must be less than 2000 characters"))
  else
    match r.duration with
    | some d =>
      -- `if (request.duration && ...)`: duration 0 is falsy and skips the check
      if d ≠ 0 ∧ (d < 1 ∨ d > 60) then
        (false, some ("Duration must be between 1 and 60 seconds"))
      else (true, none)
    | none => (true, none)

/-- Cap on the polling loop of `generateVideo`: `const maxPolls = 60`
(10 minutes at one status query per 10-second wait). -/
def maxPolls : Nat := 60

/-- Outcome of the polling loop, recording how many `getVideosOperation`
status queries were performed. -/
inductive PollOutcome where
  | done (queries : Nat)
  | timeout (queries : Nat)
  deriving Repr, DecidableEq

/-- The body of `generateVideo`'s `while (!operation.done)` loop.
`opDone i` is the `done` flag of the operation after `i` status queries
(`i = 0` is the operation returned by `generateVideos` itself).  The source
increments `pollCount`, throws a timeout once `pollCount > maxPolls`, and
otherwise waits 10 seconds and queries the status once per iteration; here
`remaining = maxPolls - pollCount` so that the recursion is structural. -/
def pollSteps (opDone : Nat → Bool) : Nat → Nat → PollOutcome
  | 0, pollCount =>
    if opDone pollCount then .done pollCount else .timeout pollCount
  | remaining + 1, pollCount =>
    if opDone pollCount then .done pollCount
    else pollSteps opDone remaining (pollCount + 1)

/-- The whole polling loop of `generateVideo`, started at `pollCount = 0`. -/
def pollLoop (opDone : Nat → Bool) : PollOutcome :=
  pollSteps opDone maxPolls 0

/-- Number of status queries a `PollOutcome` records. -/
def PollOutcome.queries : PollOutcome → Nat
  | .done q => q
  | .timeout q => q

/-- Environment of one `generateVideo` call: the evolving `done` flag of the
remote operation, and whether the finished operation's response actually
contains a generated video. -/
structure VeoEnv where
  opDone : Nat → Bool
  hasVideo : Bool

/-- Error message thrown (and then caught) on poll exhaustion. -/
def timeoutMsg : String := "Video generation timeout after 10 minutes"

/-- Error message when the operation finishes without a video. -/
def noVideoMsg : String := "Video generation completed but no video was returned"

/-- `generateVideo`: polls the operation, downloads the video on success, and
catches every thrown error into a `success = false` result. `videoPath` is
the path `fileStorage.getVideoPath storyId segmentId` the download lands at.
Returns the response together with the number of status queries performed. -/
def generateVideoRun (env : VeoEnv) (videoPath : String) (storyId : String)
    (segmentId : Nat) : GeminiVeoResponse × Nat :=
  match pollLoop env.opDone with
  | .timeout q => ({ success := false, error := some timeoutMsg }, q)
  | .done q =>
    if env.hasVideo then
      ({ success := true, videoPath := some videoPath,
         videoUrl := some ("/api/videos/" ++ storyId ++ "/" ++ toString segmentId) }, q)
    else
      ({ success := false, error := some noVideoMsg }, q)

/-- Failure message built by `generateVideoWithRetry` after exhausting all
attempts. -/
def failMsg (maxRetries : Nat) (lastError : String) : String :=
  "Failed after " ++ toString maxRetries ++ " attempts. Last error: " ++ lastError

/-- The failure result returned once every attempt has been consumed. -/
def exhaustedFailure (maxRetries : Nat) (lastError : String) : GeminiVeoResponse :=
  { success := false, error := some (failMsg maxRetries lastError) }

/-- Result of the retry wrapper plus the number of underlying
`generateVideo` calls it performed. -/
structure RetryResult where
  response : GeminiVeoResponse
  calls : Nat
  deriving Repr, DecidableEq

/-- The `for (attempt = 1; attempt <= maxRetries; attempt++)` loop of
`generateVideoWithRetry`.  `gen k` is the result of the `k`-th underlying
`generateVideo` call; `remaining = maxRetries - attempt + 1` makes the
recursion structural.  On a success the result is returned as is; otherwise
`lastError = result.error || 'Unknown error'` is kept and, after the loop,
a failure result carrying the last error is returned (never a throw). -/
def retryAux (gen : Nat → GeminiVeoResponse) (maxRetries : Nat) :
    Nat → Nat → String → RetryResult
  | 0, attempt, lastError =>
    ({ response := exhaustedFailure maxRetries lastError, calls := attempt - 1 })
  | remaining + 1, attempt, _lastError =>
    let r := gen attempt
    if r.success then { response := r, calls := attempt }
    else retryAux gen maxRetries remaining (attempt + 1) (jsOrElse r.error ("Unknown error"))

/-- `generateVideoWithRetry request storyId segmentId maxRetries`, abstracted
over the underlying per-attempt outcomes `gen`. -/
def generateVideoWithRetry (gen : Nat → GeminiVeoResponse) (maxRetries : Nat) :
    RetryResult :=
  retryAux gen maxRetries maxRetries 1 ("")

end GeminiVeo

namespace Processor

open GeminiVeo

/-- A segment as produced by `storyAnalyzer.analyzeStory` (the fields the
processor reads), before the processor attaches a `status`. -/
structure SegSpec where
  id : Nat
  sceneDescription : String
  imagePrompt : Option String := none
  duration : Option Int := none
  deriving Repr, DecidableEq

/-- A `StorySegment` held in the persisted story record. -/
structure Segment where
  id : Nat
  sceneDescription : String
  imagePrompt : Option String := none
  duration : Option Int := none
  status : String := "pending"
  videoPath : Option String := none
  videoUrl : Option String := none
  error : Option String := none
  deriving Repr, DecidableEq

/-- The persisted `StoryData` record (the fields the processor touches). -/
structure StoryData where
  id : String
  textContent : Option String := none
  status : String := "uploaded"
  progress : Int := 0
  currentStep : Option String := none
  error : Option String := none
  segments : List Segment := []
  deriving Repr, DecidableEq

/-- A `Partial<StoryData>` argument of `updateStoryStatus`: only the fields
that are present are assigned (`Object.assign`). -/
structure StoryUpdate where
  status : Option String := none
  progress : Option Int := none
  currentStep : Option String := none
  error : Option String := none
  deriving Repr, DecidableEq

/-- `Object.assign(story, updates)`: fields present in the update overwrite
the loaded record, all other fields are kept. -/
def applyUpdate (s : StoryData) (u : StoryUpdate) : StoryData :=
  { s with
    status := u.status.getD s.status,
    progress := u.progress.getD s.progress,
    currentStep := match u.currentStep with | some c => some c | none => s.currentStep,
    error := match u.error with | some e => some e | none => s.error }

/-- `Math.round(30 + (i / totalSegments) * 60)` as exact integer rounding:
`round(x) = ⌊x + 1/2⌋` and `30 + 60*i/total = (30*total + 60*i)/total`. -/
def roundProgress (i total : Nat) : Int :=
  Int.ofNat ((61 * total + 120 * i) / (2 * total))

/-- The per-segment success/failure update of the `processStory` loop:
`if (videoResult.success && videoResult.videoPath)` the segment is marked
completed with its video path and URL, otherwise it is marked failed with
`videoResult.error || 'Unknown error'` recorded on it. -/
def segmentResult (storyId : String) (seg : Segment) (r : GeminiVeoResponse) :
    Segment :=
  if r.success ∧ r.videoPath.isSome then
    { seg with videoPath := r.videoPath,
               videoUrl := some ("/api/videos/" ++ storyId ++ "/" ++ toString seg.id),
               status := "completed" }
  else
    { seg with status := "failed", error := some (jsOrElse r.error ("Unknown error")) }

/-- `segments.map(seg => ({ ...seg, status: 'pending' }))`: the segment
record the processor persists for an analyzed segment. -/
def segOfSpec (sp : SegSpec) : Segment :=
  { id := sp.id, sceneDescription := sp.sceneDescription,
    imagePrompt := sp.imagePrompt, duration := sp.duration, status := "pending" }

/-- Oracles of one `processStory` run: the outcome of
`storyAnalyzer.analyzeStory` (which may throw) and, for each loop index,
the result of `geminiVeo.generateVideo` (which never throws). -/
structure ProcEnv where
  analyzed : Except String (List SegSpec)
  video : Nat → GeminiVeoResponse

/-- Result of a run: the persisted record afterwards, the chronological list
of `saveStoryData` snapshots, and how many analyzer / video calls ran. -/
structure ProcResult where
  store : Option StoryData
  saves : List StoryData
  analyzeCalls : Nat
  videoCalls : Nat

/-- Result of the segment loop. -/
structure LoopResult where
  store : StoryData
  saves : List StoryData
  videoCalls : Nat

/-- The `for (let i = 0; ...)` segment loop of `processStory`.

`base` is the in-memory `story` object loaded at the top of `processStory`:
its top-level fields (status, progress, ...) are never reassigned in memory,
only its `segments` array is mutated in place, and `saveStoryData(storyId,
story)` persists exactly this stale object.  `updateStoryStatus`, by
contrast, re-loads the latest persisted record, merges the update and saves
it.  `done` holds the already-processed segments in reverse order, so the
in-memory array is `done.reverse ++ current :: rest`. -/
def genLoop (storyId : String) (video : Nat → GeminiVeoResponse) (total : Nat)
    (base : StoryData) :
    List Segment → List Segment → StoryData → Nat → LoopResult
  | _done, [], store, _ => { store := store, saves := [], videoCalls := 0 }
  | done, seg :: rest, store, i =>
    let store1 := applyUpdate store
      { status := some ("generating"), progress := some (roundProgress i total),
        currentStep := some ("Generating video " ++ toString (i + 1) ++ " of "
          ++ toString total ++ "...") }
    let segGen := { seg with status := "generating" }
    let memGen := { base with segments := done.reverse ++ segGen :: rest }
    let segFin := segmentResult storyId segGen (video i)
    let memFin := { base with segments := done.reverse ++ segFin :: rest }
    let tail := genLoop storyId video total base (segFin :: done) rest memFin (i + 1)
    { store := tail.store, saves := store1 :: memGen :: memFin :: tail.saves,
      videoCalls := tail.videoCalls + 1 }

/-- `processStory storyId` of the Veo-driven `StoryProcessorService`,
as a pure function of the persisted record and the oracles.

The `catch` block funnels every thrown error into
`updateStoryStatus { failed, progress 0, error }` (a no-op when the record
no longer loads) and the function then returns normally. -/
def processStory (storyId : String) (store₀ : Option StoryData) (env : ProcEnv) :
    ProcResult :=
  match store₀ with
  | none =>
    -- load returned null: throw 'Story not found or has no content';
    -- the catch block's updateStoryStatus re-loads null and does nothing
    { store := none, saves := [], analyzeCalls := 0, videoCalls := 0 }
  | some story₀ =>
    if story₀.textContent = none ∨ story₀.textContent = some ("") then
      -- falsy textContent: same throw, caught; the record still loads
      let storeF := applyUpdate story₀
        { status := some ("failed"), progress := some 0,
          error := some ("Story not found or has no content") }
      { store := some storeF, saves := [storeF], analyzeCalls := 0, videoCalls := 0 }
    else
      let store1 := applyUpdate story₀
        { status := some ("analyzing"), progress := some 10,
          currentStep := some ("Analyzing story structure...") }
      match env.analyzed with
      | .error e =>
        -- analyzeStory threw: caught, the latest persisted record is store1
        let storeF := applyUpdate store1
          { status := some ("failed"), progress := some 0, error := some e }
        { store := some storeF, saves := [store1, storeF],
          analyzeCalls := 1, videoCalls := 0 }
      | .ok specs =>
        let segs := specs.map segOfSpec
        -- story.segments = ...; saveStoryData(storyId, story)  (stale fields)
        let mem := { story₀ with segments := segs }
        let store3 := applyUpdate mem
          { status := some ("generating"), progress := some 30,
            currentStep := some ("Generating videos...") }
        let total := segs.length
        let lp := genLoop storyId env.video total mem [] segs store3 0
        let storeF := applyUpdate lp.store
          { status := some ("completed"), progress := some 100,
            currentStep := some ("Processing complete!") }
        { store := some storeF,
          saves := store1 :: mem :: store3 :: (lp.saves ++ [storeF]),
          analyzeCalls := 1, videoCalls := lp.videoCalls }

/-- Replace the first segment satisfying `p` (the one `find` aliases). -/
def updateFirstSeg (p : Segment → Bool) (f : Segment → Segment) :
    List Segment → List Segment
  | [] => []
  | s :: rest => if p s then f s :: rest else s :: updateFirstSeg p f rest

/-- The success/failure update of `regenerateSegment`: unlike the main loop,
a success also clears the recorded error (`segment.error = undefined`). -/
def regenSegmentResult (storyId : String) (seg : Segment) (r : GeminiVeoResponse) :
    Segment :=
  if r.success ∧ r.videoPath.isSome then
    { seg with videoPath := r.videoPath,
               videoUrl := some ("/api/videos/" ++ storyId ++ "/" ++ toString seg.id),
               status := "completed", error := none }
  else
    { seg with status := "failed", error := some (jsOrElse r.error ("Unknown error")) }

/-- Result of a `regenerateSegment` run. -/
structure RegenResult where
  store : StoryData
  saves : List StoryData
  videoCalls : Nat
  deriving Repr, DecidableEq

/-- `regenerateSegment storyId segmentId`: throws when the story or segment
is missing; otherwise sets the found segment's status to `'generating'`
(leaving any recorded error in place), saves, runs one `generateVideo`, then
marks the segment completed (clearing the error) or failed (recording it)
and saves again.  `video` is that single generation's outcome. -/
def regenerateSegment (storyId : String) (store₀ : Option StoryData)
    (segmentId : Nat) (video : GeminiVeoResponse) : Except String RegenResult :=
  match store₀ with
  | none => .error ("Story not found")
  | some story =>
    match story.segments.find? (fun s => s.id = segmentId) with
    | none => .error ("Segment not found")
    | some _ =>
      let segsGen := updateFirstSeg (fun s => s.id = segmentId)
        (fun s => { s with status := "generating" }) story.segments
      let memGen := { story with segments := segsGen }
      let segsFin := updateFirstSeg (fun s => s.id = segmentId)
        (fun s => regenSegmentResult storyId s video) segsGen
      let memFin := { story with segments := segsFin }
      .ok { store := memFin, saves := [memGen, memFin], videoCalls := 1 }

end Processor

namespace FileStorage

/-- The characters `.replace(/[^a-zA-Z0-9\s-_]/g, '')` keeps: ASCII letters
(65..90, 97..122), digits (48..57), `\s` (`jsWhitespace`), `-` (45) and
`_` (95). -/
def isAllowedChar (c : Char) : Bool :=
  decide ((97 ≤ c.toNat ∧ c.toNat ≤ 122) ∨ (65 ≤ c.toNat ∧ c.toNat ≤ 90) ∨
    (48 ≤ c.toNat ∧ c.toNat ≤ 57) ∨ jsWhitespace c = true ∨
    c.toNat = 45 ∨ c.toNat = 95)

/-- `.replace(/\.[^/.]+$/, '')`: the regex matches exactly when the text ends
in a dot followed by a nonempty run of characters none of which is `/` or
`.` — i.e. when, reading from the right, a `.` is reached before any `/`,
with at least one character before it.  That final `.ext` is removed. -/
def stripExtension (cs : List Char) : List Char :=
  let rev := cs.reverse
  let ext := rev.takeWhile (fun c => decide (c ≠ '.' ∧ c ≠ '/'))
  match rev.drop ext.length with
  | '.' :: rest => if ext.isEmpty then cs else rest.reverse
  | _ => cs

/-- `.replace(/\s+/g, '-')`: each maximal run of `\s` characters becomes one
hyphen.  `inRun` records whether the previous character was whitespace. -/
def collapseWsAux : Bool → List Char → List Char
  | _, [] => []
  | inRun, c :: cs =>
    if jsWhitespace c then
      if inRun then collapseWsAux true cs else '-' :: collapseWsAux true cs
    else c :: collapseWsAux false cs

/-- `.replace(/\s+/g, '-')` from the start of the string. -/
def collapseWs (cs : List Char) : List Char :=
  collapseWsAux false cs

/-- `sanitizeStoryName`: strip the file extension, remove every character
outside `[a-zA-Z0-9\s-_]`, collapse whitespace runs to `-`, lower-case,
and truncate to 50 characters. -/
def sanitizeStoryName (filename : List Char) : List Char :=
  ((collapseWs ((stripExtension filename).filter isAllowedChar)).map Char.toLower).take 50

/-- `sanitizeSectionName`: same pipeline without the extension strip,
truncated to 30 characters. -/
def sanitizeSectionName (sectionName : List Char) : List Char :=
  ((collapseWs (sectionName.filter isAllowedChar)).map Char.toLower).take 30

/-- The output alphabet the sanitizers are claimed to produce: lowercase
ASCII letters, digits, hyphen, underscore. -/
def goodNameChar (c : Char) : Prop :=
  (97 ≤ c.toNat ∧ c.toNat ≤ 122) ∨ (48 ≤ c.toNat ∧ c.toNat ≤ 57) ∨
    c = '-' ∨ c = '_'

end FileStorage

namespace VideosRoute

/-- `parseInt(s, 10)` on the digit prefix: accumulates the value of leading
decimal digits, stopping at the first non-digit. -/
def digitsVal : Nat → List Char → Nat
  | acc, [] => acc
  | acc, c :: cs => if c.isDigit then digitsVal (acc * 10 + (c.toNat - 48)) cs else acc

/-- `parseInt(s, 10)`: `none` models `NaN` (no leading digit). -/
def parseIntChars : List Char → Option Nat
  | [] => none
  | c :: cs => if c.isDigit then some (digitsVal 0 (c :: cs)) else none

/-- `.split('-')`. -/
def splitOnDash : List Char → List (List Char)
  | [] => [[]]
  | c :: cs =>
    if c = '-' then [] :: splitOnDash cs
    else
      match splitOnDash cs with
      | [] => [[c]]
      | p :: ps => (c :: p) :: ps

/-- The characters of `"bytes="`. -/
def rangeUnitTag : List Char := ['b', 'y', 't', 'e', 's', '=']

/-- `range.replace(/bytes=/, '')` for the headers this route receives, which
all begin with `bytes=`: the leading tag is removed (on a string without the
tag as a prefix the regex variant would delete its first occurrence
anywhere; the claim's headers always carry it as the prefix). -/
def dropRangeUnit (cs : List Char) : List Char :=
  if cs.take 6 = rangeUnitTag then cs.drop 6 else cs

/-- The response the streaming handler writes: status code, the
`Content-Range` / `Accept-Ranges` headers when present, `Content-Length`,
`Content-Type`, and the streamed bytes. -/
structure RangeResponse where
  status : Nat
  contentRange : Option String := none
  acceptRanges : Option String := none
  contentLength : Nat
  contentType : String := "video/mp4"
  body : List Nat
  deriving Repr, DecidableEq

/-- The streaming part of `GET /api/videos/:storyId/:segmentId` (after the
story/segment/file existence guards): with a `Range` header, parse
`bytes=start-end` (an absent or empty end part defaults to `fileSize - 1`),
answer `206` with `Content-Range`/`Accept-Ranges` and the inclusive byte
slice; without one, answer `200` with the whole file.  A `NaN` bound makes
`createReadStream` throw, which the route's catch turns into a 500. -/
def streamVideo (file : List Nat) (rangeHeader : Option (List Char)) :
    RangeResponse :=
  let fileSize := file.length
  match rangeHeader with
  | none =>
    { status := 200, contentLength := fileSize, body := file }
  | some range =>
    let parts := splitOnDash (dropRangeUnit range)
    match parseIntChars (parts.getD 0 []) with
    | none => { status := 500, contentLength := 0, body := [] }
    | some start =>
      let endPart := parts.getD 1 []
      let endVal : Option Nat :=
        if endPart.isEmpty then some (fileSize - 1) else parseIntChars endPart
      match endVal with
      | none => { status := 500, contentLength := 0, body := [] }
      | some endB =>
        { status := 206,
          contentRange := some ("bytes " ++ toString start ++ "-" ++ toString endB
            ++ "/" ++ toString fileSize),
          acceptRanges := some ("bytes"),
          contentLength := endB - start + 1,
          body := (file.drop start).take (endB - start + 1) }

end VideosRoute

namespace Processor

open GeminiVeo in
/-- The segment list the loop leaves behind: position `i` holds the current
segment set to `'generating'` and then run through `segmentResult` with the
`i`-th video outcome. -/
def processedSegs (storyId : String) (video : Nat → GeminiVeoResponse) :
    Nat → List Segment → List Segment
  | _, [] => []
  | i, seg :: rest =>
    segmentResult storyId { seg with status := "generating" } (video i)
      :: processedSegs storyId video (i + 1) rest

end Processor

namespace Demo

open GeminiVeo Processor

/-- A successful video result carrying a path. -/
def okResp : GeminiVeoResponse :=
  { success := true, videoPath := some "p.mp4", videoUrl := some "u" }

/-- An analyzed segment. -/
def spec1 : SegSpec := { id := 1, sceneDescription := "scene one" }

/-- A second analyzed segment. -/
def spec2 : SegSpec := { id := 2, sceneDescription := "scene two" }

/-- A freshly uploaded story record, as the upload route creates it. -/
def freshStory : StoryData :=
  { id := "s1", textContent := some "Once upon a time", status := "uploaded",
    progress := 0 }

/-- Environment in which analysis yields one segment and video generation
succeeds. -/
def okEnv : ProcEnv := { analyzed := .ok [spec1], video := fun _ => okResp }

/-- A story record already at `completed` / 100. -/
def completedStory : StoryData :=
  { id := "s1", textContent := some "Once upon a time", status := "completed",
    progress := 100,
    segments := [{ id := 1, sceneDescription := "scene one",
                   status := "completed", videoPath := some "p.mp4",
                   videoUrl := some "/api/videos/s1/1" }] }

/-- Environment in which analysis throws. -/
def errEnv : ProcEnv := { analyzed := .error "analysis failed", video := fun _ => okResp }

/-- A story whose only segment is currently `'generating'` with a recorded
error, as during an active run. -/
def genStory : StoryData :=
  { id := "s1", textContent := some "Once upon a time", status := "generating",
    progress := 30,
    segments := [{ id := 1, sceneDescription := "scene one",
                   status := "generating", error := some "previous error" }] }

/-- Environment with two analyzed segments where generation fails for the
first and succeeds for the second. -/
def mixedEnv : ProcEnv :=
  { analyzed := .ok [spec1, spec2],
    video := fun k =>
      if k = 0 then { success := false, error := some ("boom") } else okResp }

/-- The permanent (validation-class) failure outcome used for C4: the
error an out-of-range duration is classified with. -/
def permanentFailure : GeminiVeoResponse :=
  { success := false, error := some ("Duration must be between 1 and 60 seconds") }

/-- A previously failed segment, for the regenerate witness. -/
def pendingSeg : Segment :=
  { id := 1, sceneDescription := "scene one", status := "failed",
    error := some "old failure" }

/-- A story holding `pendingSeg`, for the regenerate witness. -/
def pendingStory : StoryData :=
  { id := "s1", textContent := some "Once upon a time", status := "completed",
    progress := 100, segments := [pendingSeg] }

end Demo

namespace GeminiVeo

lemma retryAux_step (gen : Nat → GeminiVeoResponse) (M remaining attempt : Nat)
    (lastError : String) (hfail : (gen attempt).success = false) :
    retryAux gen M (remaining + 1) attempt lastError =
      retryAux gen M remaining (attempt + 1)
        (jsOrElse (gen attempt).error ("Unknown error")) := by
  conv_lhs => rw [retryAux]
  simp [hfail]

lemma retryAux_all_fail (gen : Nat → GeminiVeoResponse) (M : Nat) :
    ∀ (remaining attempt : Nat) (lastError : String),
      (∀ k, attempt ≤ k → k < attempt + remaining + 1 → (gen k).success = false) →
      retryAux gen M (remaining + 1) attempt lastError =
        { response := exhaustedFailure M
            (jsOrElse (gen (attempt + remaining)).error ("Unknown error")),
          calls := attempt + remaining } := by
  intro remaining
  induction remaining with
  | zero =>
    intro attempt lastError h
    have hfail : (gen attempt).success = false := h attempt le_rfl (by omega)
    simp [retryAux, hfail]
  | succ r ih =>
    intro attempt lastError h
    have hfail : (gen attempt).success = false := h attempt le_rfl (by omega)
    rw [retryAux_step gen M (r + 1) attempt lastError hfail,
      ih (attempt + 1) _ (fun k hk1 hk2 => h k (by omega) (by omega))]
    have e1 : attempt + 1 + r = attempt + (r + 1) := by omega
    rw [e1]

lemma retryAux_first_success (gen : Nat → GeminiVeoResponse) (M : Nat) :
    ∀ (remaining attempt : Nat) (lastError : String) (k : Nat),
      attempt ≤ k → k < attempt + remaining → (gen k).success = true →
      (∀ j, attempt ≤ j → j < k → (gen j).success = false) →
      retryAux gen M remaining attempt lastError = { response := gen k, calls := k } := by
  intro remaining
  induction remaining with
  | zero =>
    intro attempt lastError k h1 h2
    omega
  | succ r ih =>
    intro attempt lastError k h1 h2 hs hj
    by_cases hk : k = attempt
    · subst hk
      simp [retryAux, hs]
    · have hfa : (gen attempt).success = false := hj attempt le_rfl (by omega)
      rw [retryAux_step gen M r attempt lastError hfa]
      exact ih (attempt + 1) _ k (by omega) (by omega) hs
        (fun j a b => hj j (by omega) b)

lemma generateVideoWithRetry_all_fail (gen : Nat → GeminiVeoResponse)
    (maxRetries : Nat) (hM : 1 ≤ maxRetries)
    (h : ∀ k, 1 ≤ k → k ≤ maxRetries → (gen k).success = false) :
    generateVideoWithRetry gen maxRetries =
      { response := exhaustedFailure maxRetries
          (jsOrElse (gen maxRetries).error ("Unknown error")),
        calls := maxRetries } := by
  obtain ⟨m, rfl⟩ : ∃ m, maxRetries = m + 1 := ⟨maxRetries - 1, by omega⟩
  unfold generateVideoWithRetry
  rw [retryAux_all_fail gen (m + 1) m 1 ("")
    (fun k hk1 hk2 => h k hk1 (by omega))]
  have e1 : 1 + m = m + 1 := by omega
  rw [e1]

lemma generateVideoWithRetry_first_success (gen : Nat → GeminiVeoResponse)
    (maxRetries : Nat) (k : Nat) (hk1 : 1 ≤ k) (hk2 : k ≤ maxRetries)
    (hs : (gen k).success = true)
    (hj : ∀ j, 1 ≤ j → j < k → (gen j).success = false) :
    generateVideoWithRetry gen maxRetries = { response := gen k, calls := k } := by
  unfold generateVideoWithRetry
  exact retryAux_first_success gen maxRetries maxRetries 1 ("") k hk1 (by omega) hs hj

/-- C3.  Retry bound and failure result: with every underlying call failing,
`generateVideoWithRetry` performs exactly `maxRetries` underlying calls and
returns a failure result whose error message carries the last underlying
error; if the underlying call first succeeds at attempt `k ≤ maxRetries`,
it returns that success after exactly `k` calls.  Being a total function of
the per-attempt outcomes, it never throws past its boundary. -/
theorem veo_retry_bound (gen : Nat → GeminiVeoResponse) (maxRetries : Nat)
    (hM : 1 ≤ maxRetries) :
    ((∀ k, 1 ≤ k → k ≤ maxRetries → (gen k).success = false) →
      generateVideoWithRetry gen maxRetries =
        { response := exhaustedFailure maxRetries
            (jsOrElse (gen maxRetries).error ("Unknown error")),
          calls := maxRetries }) ∧
    (∀ k, 1 ≤ k → k ≤ maxRetries → (gen k).success = true →
      (∀ j, 1 ≤ j → j < k → (gen j).success = false) →
      generateVideoWithRetry gen maxRetries = { response := gen k, calls := k }) := by
  constructor
  · exact fun h => generateVideoWithRetry_all_fail gen maxRetries hM h
  · exact fun k hk1 hk2 hs hj =>
      generateVideoWithRetry_first_success gen maxRetries k hk1 hk2 hs hj

/-- Witness for C3 at concrete inputs: a generator failing both of 2
attempts yields the failure result after 2 calls; a generator succeeding
immediately yields its success after 1 call out of 3. -/
theorem veo_retry_bound_witness :
    generateVideoWithRetry (fun _ => { success := false, error := some ("boom") }) 2 =
      { response := exhaustedFailure 2 (jsOrElse (some ("boom")) ("Unknown error")),
        calls := 2 } ∧
    generateVideoWithRetry (fun _ => { success := true, videoPath := some ("p.mp4") }) 3 =
      { response := { success := true, videoPath := some ("p.mp4") }, calls := 1 } := by
  constructor
  · exact (veo_retry_bound (fun _ => { success := false, error := some ("boom") }) 2
      (by decide)).1 (fun _ _ _ => rfl)
  · exact (veo_retry_bound (fun _ => { success := true, videoPath := some ("p.mp4") }) 3
      (by decide)).2 1 le_rfl (by decide) rfl (fun j h1 h2 => absurd h1 (by omega))

/-- C4 counterexample: an out-of-range duration (61 s) is classified
invalid by `validateRequest` (a permanent validation failure), yet a
generator that keeps failing with exactly that validation error is retried:
the wrapper performs all 3 underlying calls instead of stopping after the
first permanent failure. -/
theorem veo_permanent_shortcircuit_cx :
    (validateRequest { prompt := "p", duration := some 61 }).1 = false ∧
    (generateVideoWithRetry (fun _ => Demo.permanentFailure) 3).calls = 3 ∧
    (generateVideoWithRetry (fun _ => Demo.permanentFailure) 3).calls ≠ 1 := by
  have h := generateVideoWithRetry_all_fail (fun _ => Demo.permanentFailure) 3
    (by decide) (fun _ _ _ => rfl)
  refine ⟨by decide, ?_, ?_⟩ <;> rw [h]
  decide

/-- C4 as amended: `generateVideoWithRetry` never consults the
transient/permanent classification (`validateRequest` is not invoked by it),
so a failure that validation classifies as permanent is retried like any
other: with every attempt failing, all `maxRetries` underlying calls are
consumed before the failure result is returned. -/
theorem veo_permanent_failures_retried (req : GeminiVeoRequest)
    (gen : Nat → GeminiVeoResponse) (maxRetries : Nat)
    (_hperm : (validateRequest req).1 = false) (hM : 1 ≤ maxRetries)
    (hfail : ∀ k, 1 ≤ k → k ≤ maxRetries → (gen k).success = false) :
    (generateVideoWithRetry gen maxRetries).calls = maxRetries ∧
    (generateVideoWithRetry gen maxRetries).response.success = false := by
  rw [generateVideoWithRetry_all_fail gen maxRetries hM hfail]
  exact ⟨rfl, rfl⟩

/-- Witness for the amended C4: an empty prompt fails validation, and the
always-failing generator is still called 3 of 3 times. -/
theorem veo_permanent_failures_retried_witness :
    (generateVideoWithRetry
        (fun _ => { success := false, error := some ("Prompt is required") }) 3).calls = 3 ∧
    (generateVideoWithRetry
        (fun _ => { success := false, error := some ("Prompt is required") }) 3).response.success
      = false :=
  veo_permanent_failures_retried { prompt := "" }
    (fun _ => { success := false, error := some ("Prompt is required") }) 3
    (by decide) (by decide) (fun _ _ _ => rfl)

end GeminiVeo

namespace GeminiVeo

lemma pollSteps_queries_le (opDone : Nat → Bool) :
    ∀ (remaining pollCount : Nat),
      (pollSteps opDone remaining pollCount).queries ≤ pollCount + remaining := by
  intro remaining
  induction remaining with
  | zero =>
    intro pollCount
    by_cases h : opDone pollCount = true <;> simp [pollSteps, h, PollOutcome.queries]
  | succ r ih =>
    intro pollCount
    by_cases h : opDone pollCount = true
    · simp [pollSteps, h, PollOutcome.queries]
    · simp only [pollSteps, h, Bool.false_eq_true, if_false]
      have := ih (pollCount + 1)
      omega

lemma pollSteps_never (opDone : Nat → Bool) (h : ∀ i, opDone i = false) :
    ∀ (remaining pollCount : Nat),
      pollSteps opDone remaining pollCount = .timeout (pollCount + remaining) := by
  intro remaining
  induction remaining with
  | zero =>
    intro pollCount
    simp [pollSteps, h pollCount]
  | succ r ih =>
    intro pollCount
    simp only [pollSteps, h pollCount, Bool.false_eq_true, if_false]
    rw [ih (pollCount + 1)]
    have e1 : pollCount + 1 + r = pollCount + (r + 1) := by omega
    rw [e1]

lemma pollSteps_done_now (opDone : Nat → Bool) (remaining pollCount : Nat)
    (h : opDone pollCount = true) :
    pollSteps opDone remaining pollCount = .done pollCount := by
  cases remaining <;> simp [pollSteps, h]

/-- C6.  Poller bound: the polling loop performs at most 60 status queries
for any operation; when the operation never reports done, `generateVideo`
stops after exactly `maxPolls = 60` queries and returns a failure result
carrying the timeout message rather than polling forever — and that timeout
failure, being an ordinary failure result, is retried by
`generateVideoWithRetry`: with the first attempt timing out and the second
attempt's operation completing with a video, the wrapper returns the second
attempt's success after 2 underlying calls. -/
theorem veo_poller_cap (env env2 : VeoEnv) (videoPath storyId : String)
    (segmentId : Nat) (maxR : Nat)
    (hnever : ∀ i, env.opDone i = false)
    (h2 : env2.opDone 0 = true) (h2v : env2.hasVideo = true) (hmaxR : 2 ≤ maxR) :
    (∀ e : VeoEnv, (pollLoop e.opDone).queries ≤ maxPolls) ∧
    generateVideoRun env videoPath storyId segmentId =
      ({ success := false, error := some timeoutMsg }, maxPolls) ∧
    generateVideoWithRetry
        (fun k => if k = 1 then (generateVideoRun env videoPath storyId segmentId).1
          else (generateVideoRun env2 videoPath storyId segmentId).1) maxR =
      { response := (generateVideoRun env2 videoPath storyId segmentId).1,
        calls := 2 } := by
  have htimeout : pollLoop env.opDone = .timeout 60 := by
    unfold pollLoop maxPolls
    rw [pollSteps_never env.opDone hnever 60 0]
  have hrun1 : generateVideoRun env videoPath storyId segmentId =
      ({ success := false, error := some timeoutMsg }, maxPolls) := by
    unfold generateVideoRun
    rw [htimeout]
    rfl
  have hdone2 : pollLoop env2.opDone = .done 0 :=
    pollSteps_done_now env2.opDone maxPolls 0 h2
  have hrun2 : (generateVideoRun env2 videoPath storyId segmentId).1.success = true := by
    unfold generateVideoRun
    rw [hdone2, h2v]
    rfl
  refine ⟨?_, hrun1, ?_⟩
  · intro e
    have := pollSteps_queries_le e.opDone maxPolls 0
    simpa [pollLoop] using this
  · have happ := generateVideoWithRetry_first_success
      (fun k => if k = 1 then (generateVideoRun env videoPath storyId segmentId).1
        else (generateVideoRun env2 videoPath storyId segmentId).1) maxR 2
      (by omega) hmaxR (by simpa using hrun2)
      (fun j hj1 hj2 => by
        have hj : j = 1 := by omega
        subst hj
        beta_reduce
        rw [if_pos rfl, hrun1])
    simpa using happ

/-- Witness for C6: a never-done operation against an immediately-done one,
with 2 retry attempts. -/
theorem veo_poller_cap_witness :
    (∀ e : VeoEnv, (pollLoop e.opDone).queries ≤ maxPolls) ∧
    generateVideoRun ⟨fun _ => false, true⟩ ("v.mp4") ("s1") 1 =
      ({ success := false, error := some timeoutMsg }, maxPolls) ∧
    generateVideoWithRetry
        (fun k => if k = 1 then (generateVideoRun ⟨fun _ => false, true⟩ ("v.mp4") ("s1") 1).1
          else (generateVideoRun ⟨fun _ => true, true⟩ ("v.mp4") ("s1") 1).1) 2 =
      { response := (generateVideoRun ⟨fun _ => true, true⟩ ("v.mp4") ("s1") 1).1,
        calls := 2 } :=
  veo_poller_cap ⟨fun _ => false, true⟩ ⟨fun _ => true, true⟩ ("v.mp4") ("s1") 1 2
    (fun _ => rfl) rfl rfl (by decide)

end GeminiVeo


namespace Processor

open GeminiVeo

lemma genLoop_videoCalls (storyId : String) (video : Nat → GeminiVeoResponse)
    (total : Nat) (base : StoryData) :
    ∀ (todo done : List Segment) (store : StoryData) (i : Nat),
      (genLoop storyId video total base done todo store i).videoCalls = todo.length := by
  intro todo
  induction todo with
  | nil => intro done store i; rfl
  | cons seg rest ih =>
    intro done store i
    conv_lhs => rw [genLoop]
    simp only [ih]
    simp

lemma genLoop_store_cons (storyId : String) (video : Nat → GeminiVeoResponse)
    (total : Nat) (base : StoryData) :
    ∀ (rest : List Segment) (seg : Segment) (done : List Segment)
      (store : StoryData) (i : Nat),
      (genLoop storyId video total base done (seg :: rest) store i).store =
        { base with
          segments := done.reverse ++ processedSegs storyId video i (seg :: rest) } := by
  intro rest
  induction rest with
  | nil =>
    intro seg done store i
    rfl
  | cons s rest' ih =>
    intro seg done store i
    conv_lhs => rw [genLoop]
    simp only [ih]
    simp [processedSegs, List.reverse_cons, List.append_assoc]

lemma processedSegs_length (storyId : String) (video : Nat → GeminiVeoResponse) :
    ∀ (l : List Segment) (i : Nat),
      (processedSegs storyId video i l).length = l.length := by
  intro l
  induction l with
  | nil => intro i; rfl
  | cons seg rest ih => intro i; simp [processedSegs, ih]

lemma processedSegs_get (storyId : String) (video : Nat → GeminiVeoResponse) :
    ∀ (l : List Segment) (i k : Nat),
      (processedSegs storyId video i l).get? k =
        (l.get? k).map
          (fun seg => segmentResult storyId { seg with status := "generating" }
            (video (i + k))) := by
  intro l
  induction l with
  | nil => intro i k; simp [processedSegs]
  | cons seg rest ih =>
    intro i k
    cases k with
    | zero => simp [processedSegs]
    | succ k' =>
      simp only [processedSegs, List.get?]
      rw [ih (i + 1) k']
      have e1 : i + 1 + k' = i + (k' + 1) := by omega
      rw [e1]

lemma textContent_check (story₀ : StoryData) (t : String)
    (htext : story₀.textContent = some t) (ht : t ≠ "") :
    ¬(story₀.textContent = none ∨ story₀.textContent = some ("")) := by
  rw [htext]
  simp [ht]

lemma processStory_store_eq (storyId : String) (story₀ : StoryData)
    (env : ProcEnv) (specs : List SegSpec) (t : String)
    (htext : story₀.textContent = some t) (ht : t ≠ "")
    (hana : env.analyzed = .ok specs) :
    (processStory storyId (some story₀) env).store =
      some (applyUpdate
        (genLoop storyId env.video (specs.map segOfSpec).length
          { story₀ with segments := specs.map segOfSpec } []
          (specs.map segOfSpec)
          (applyUpdate { story₀ with segments := specs.map segOfSpec }
            { status := some ("generating"), progress := some 30,
              currentStep := some ("Generating videos...") }) 0).store
        { status := some ("completed"), progress := some 100,
          currentStep := some ("Processing complete!") }) := by
  have hcond := textContent_check story₀ t htext ht
  simp only [processStory, if_neg hcond]
  rw [hana]

lemma processStory_completed_store (storyId : String) (story₀ : StoryData)
    (env : ProcEnv) (specs : List SegSpec) (t : String)
    (htext : story₀.textContent = some t) (ht : t ≠ "")
    (hana : env.analyzed = .ok specs) :
    ∃ f, (processStory storyId (some story₀) env).store = some f ∧
      f.status = "completed" ∧ f.progress = 100 ∧
      f.segments = processedSegs storyId env.video 0 (specs.map segOfSpec) := by
  refine ⟨_, processStory_store_eq storyId story₀ env specs t htext ht hana, rfl, rfl, ?_⟩
  show (genLoop storyId env.video (specs.map segOfSpec).length
      { story₀ with segments := specs.map segOfSpec } []
      (specs.map segOfSpec) _ 0).store.segments = _
  rcases hm : specs.map segOfSpec with _ | ⟨s, rest⟩
  · rfl
  · rw [genLoop_store_cons]
    simp

lemma processStory_calls (storyId : String) (story₀ : StoryData)
    (env : ProcEnv) (specs : List SegSpec) (t : String)
    (htext : story₀.textContent = some t) (ht : t ≠ "")
    (hana : env.analyzed = .ok specs) :
    (processStory storyId (some story₀) env).analyzeCalls = 1 ∧
    (processStory storyId (some story₀) env).videoCalls = specs.length ∧
    (processStory storyId (some story₀) env).saves.head? =
      some (applyUpdate story₀
        { status := some ("analyzing"), progress := some 10,
          currentStep := some ("Analyzing story structure...") }) := by
  have hcond := textContent_check story₀ t htext ht
  refine ⟨?_, ?_, ?_⟩ <;> simp only [processStory, if_neg hcond] <;> rw [hana] <;>
    simp [genLoop_videoCalls]

end Processor

namespace Processor

open GeminiVeo

/-- C1.  Segment isolation: once the segment list is created (analysis
returned `specs`), the per-segment loop marks each segment whose video
generation did not succeed as `'failed'` with the error recorded on it,
continues to the remaining segments, and after the loop the story record is
saved with status `'completed'` and progress 100 regardless of how many
segments failed — no segment failure alone moves the story to `'failed'`. -/
theorem processor_segment_isolation (storyId : String) (story₀ : StoryData)
    (env : ProcEnv) (specs : List SegSpec) (t : String)
    (htext : story₀.textContent = some t) (ht : t ≠ "")
    (hana : env.analyzed = .ok specs) :
    ∃ f, (processStory storyId (some story₀) env).store = some f ∧
      f.status = "completed" ∧ f.progress = 100 ∧
      f.segments.length = specs.length ∧
      (∀ k, k < specs.length →
        (((env.video k).success = true ∧ (env.video k).videoPath.isSome = true) →
          (f.segments.get? k).map Segment.status = some ("completed")) ∧
        (¬((env.video k).success = true ∧ (env.video k).videoPath.isSome = true) →
          (f.segments.get? k).map Segment.status = some ("failed") ∧
          (f.segments.get? k).map Segment.error =
            some (some (jsOrElse (env.video k).error ("Unknown error"))))) := by
  obtain ⟨f, hstore, hstat, hprog, hsegs⟩ :=
    processStory_completed_store storyId story₀ env specs t htext ht hana
  refine ⟨f, hstore, hstat, hprog, ?_, ?_⟩
  · rw [hsegs, processedSegs_length]
    simp
  · intro k hk
    have hmap : (specs.map segOfSpec).get? k = (specs.get? k).map segOfSpec :=
      List.get?_map segOfSpec specs k
    have hsp : specs.get? k = some (specs.get ⟨k, hk⟩) := List.get?_eq_get hk
    have hget : f.segments.get? k =
        some (segmentResult storyId
          { segOfSpec (specs.get ⟨k, hk⟩) with status := "generating" }
          (env.video k)) := by
      rw [hsegs, processedSegs_get, hmap, hsp]
      simp
    constructor
    · intro hok
      rw [hget]
      rw [show segmentResult storyId
          { segOfSpec (specs.get ⟨k, hk⟩) with status := "generating" }
          (env.video k) = _ from if_pos hok]
      rfl
    · intro hnok
      rw [hget]
      refine ⟨?_, ?_⟩ <;>
        rw [show segmentResult storyId
            { segOfSpec (specs.get ⟨k, hk⟩) with status := "generating" }
            (env.video k) = _ from if_neg hnok] <;>
        rfl

end Processor

namespace Processor

open GeminiVeo

/-- Witness for C1: two segments, the first video fails, the second
succeeds; the story still completes at 100. -/
theorem processor_segment_isolation_witness :
    ∃ f, (processStory ("s1") (some Demo.freshStory) Demo.mixedEnv).store = some f ∧
      f.status = "completed" ∧ f.progress = 100 ∧
      f.segments.length = ([Demo.spec1, Demo.spec2] : List SegSpec).length ∧
      (∀ k, k < ([Demo.spec1, Demo.spec2] : List SegSpec).length →
        (((Demo.mixedEnv.video k).success = true ∧
            (Demo.mixedEnv.video k).videoPath.isSome = true) →
          (f.segments.get? k).map Segment.status = some ("completed")) ∧
        (¬((Demo.mixedEnv.video k).success = true ∧
            (Demo.mixedEnv.video k).videoPath.isSome = true) →
          (f.segments.get? k).map Segment.status = some ("failed") ∧
          (f.segments.get? k).map Segment.error =
            some (some (jsOrElse (Demo.mixedEnv.video k).error ("Unknown error"))))) :=
  processor_segment_isolation ("s1") Demo.freshStory Demo.mixedEnv
    [Demo.spec1, Demo.spec2] ("Once upon a time") rfl (by decide) rfl

/-- C2 counterexample: re-invoking `processStory` on a story already
persisted as `completed` re-runs the stages — the video generator is called
once more — and the persisted record afterwards is not byte-identical to
the completed record it started from. -/
theorem processor_idempotence_cx :
    (processStory ("s1") (some Demo.completedStory) Demo.okEnv).videoCalls = 1 ∧
    (processStory ("s1") (some Demo.completedStory) Demo.okEnv).analyzeCalls = 1 ∧
    (processStory ("s1") (some Demo.completedStory) Demo.okEnv).store ≠
      some Demo.completedStory := by
  refine ⟨by decide, by decide, by decide⟩

/-- C2 as amended: `processStory` never reads the persisted stage to
resume.  Whatever status the stored record carries — `completed`
included — a re-invocation re-runs the full pipeline: one analyzer call,
one video call per analyzed segment, and its first save rewrites the
record to `analyzing` / 10. -/
theorem processor_no_resume (storyId : String) (story₀ : StoryData)
    (env : ProcEnv) (specs : List SegSpec) (t : String)
    (htext : story₀.textContent = some t) (ht : t ≠ "")
    (hana : env.analyzed = .ok specs) :
    (processStory storyId (some story₀) env).analyzeCalls = 1 ∧
    (processStory storyId (some story₀) env).videoCalls = specs.length ∧
    (processStory storyId (some story₀) env).saves.head? =
      some (applyUpdate story₀
        { status := some ("analyzing"), progress := some 10,
          currentStep := some ("Analyzing story structure...") }) :=
  processStory_calls storyId story₀ env specs t htext ht hana

/-- Witness for the amended C2, at a record whose persisted status is
already `completed`. -/
theorem processor_no_resume_witness :
    (processStory ("s1") (some Demo.completedStory) Demo.okEnv).analyzeCalls = 1 ∧
    (processStory ("s1") (some Demo.completedStory) Demo.okEnv).videoCalls = 1 ∧
    (processStory ("s1") (some Demo.completedStory) Demo.okEnv).saves.head? =
      some (applyUpdate Demo.completedStory
        { status := some ("analyzing"), progress := some 10,
          currentStep := some ("Analyzing story structure...") }) :=
  processor_no_resume ("s1") Demo.completedStory Demo.okEnv [Demo.spec1]
    ("Once upon a time") rfl (by decide) rfl

/-- C5, evaluated at the failing input (code bug): one freshly uploaded
story (progress 0) whose single segment generates successfully.  The
persisted progress sequence is 10, 0, 30, 30, 0, 0, 100: the direct
`saveStoryData(storyId, story)` calls persist the stale in-memory record
(progress 0, status `uploaded`) after `updateStoryStatus` had already
persisted 10 and 30, so progress decreases while no terminal status has
been reached — contradicting the documented monotone 5 → 10-25 → 25-40 →
40-95 → 100 progression. -/
theorem processor_progress_not_monotone :
    ((processStory ("s1") (some Demo.freshStory) Demo.okEnv).saves.map
        StoryData.progress = [10, 0, 30, 30, 0, 0, 100]) ∧
    ((processStory ("s1") (some Demo.freshStory) Demo.okEnv).saves.map
        StoryData.status =
      ["analyzing", "uploaded", "generating", "generating", "uploaded",
        "uploaded", "completed"]) := by
  refine ⟨by decide, by decide⟩

/-- C9.  Terminal failure write: when a stage throws (here: the analyzer),
the catch handler persists the record — when it still loads — with status
`failed`, progress 0 and the error message recorded, while every field
persisted before the failure (id, text, segments, the last `currentStep`)
is left in place; `processStory` itself returns normally (it is total).
When the record no longer loads, the catch handler's update is a no-op. -/
theorem processor_failure_write (storyId : String) (story₀ : StoryData)
    (env : ProcEnv) (e t : String)
    (htext : story₀.textContent = some t) (ht : t ≠ "")
    (hana : env.analyzed = .error e) :
    (∃ f, (processStory storyId (some story₀) env).store = some f ∧
      f.status = "failed" ∧ f.progress = 0 ∧ f.error = some e ∧
      f.id = story₀.id ∧ f.textContent = story₀.textContent ∧
      f.segments = story₀.segments ∧
      f.currentStep = some ("Analyzing story structure...")) ∧
    (∀ env' : ProcEnv, (processStory storyId none env').store = none ∧
      (processStory storyId none env').saves = []) := by
  constructor
  · have hcond := textContent_check story₀ t htext ht
    refine ⟨applyUpdate
        (applyUpdate story₀
          { status := some ("analyzing"), progress := some 10,
            currentStep := some ("Analyzing story structure...") })
        { status := some ("failed"), progress := some 0, error := some e },
      ?_, rfl, rfl, rfl, rfl, rfl, rfl, rfl⟩
    simp only [processStory, if_neg hcond]
    rw [hana]
  · intro env'
    exact ⟨rfl, rfl⟩

/-- Witness for C9 at a concrete story and failing analyzer. -/
theorem processor_failure_write_witness :
    (∃ f, (processStory ("s1") (some Demo.freshStory) Demo.errEnv).store = some f ∧
      f.status = "failed" ∧ f.progress = 0 ∧ f.error = some ("analysis failed") ∧
      f.id = Demo.freshStory.id ∧ f.textContent = Demo.freshStory.textContent ∧
      f.segments = Demo.freshStory.segments ∧
      f.currentStep = some ("Analyzing story structure...")) ∧
    (∀ env' : ProcEnv, (processStory ("s1") none env').store = none ∧
      (processStory ("s1") none env').saves = []) :=
  processor_failure_write ("s1") Demo.freshStory Demo.errEnv ("analysis failed")
    ("Once upon a time") rfl (by decide) rfl

end Processor

namespace Processor

open GeminiVeo

lemma updateFirstSeg_find_spec (p : Segment → Bool) :
    ∀ (l : List Segment) (seg : Segment), l.find? p = some seg →
      ∃ j, l.get? j = some seg ∧
        ∀ (f : Segment → Segment),
          (updateFirstSeg p f l).get? j = some (f seg) ∧
          (∀ i, i ≠ j → (updateFirstSeg p f l).get? i = l.get? i) := by
  intro l
  induction l with
  | nil => intro seg h; simp [List.find?] at h
  | cons s rest ih =>
    intro seg h
    by_cases hp : p s
    · have hseg : s = seg := by
        rw [List.find?_cons_of_pos _ hp] at h
        exact Option.some.inj h
      subst hseg
      refine ⟨0, rfl, fun f => ⟨by simp [updateFirstSeg, hp], ?_⟩⟩
      intro i hi
      cases i with
      | zero => exact absurd rfl hi
      | succ i' => simp [updateFirstSeg, hp]
    · rw [List.find?_cons_of_neg _ hp] at h
      obtain ⟨j, hj1, hj2⟩ := ih seg h
      refine ⟨j + 1, by simpa using hj1, fun f => ⟨?_, ?_⟩⟩
      · have h1 := (hj2 f).1
        simp only [updateFirstSeg, hp, Bool.false_eq_true, if_false]
        simpa using h1
      · intro i hi
        cases i with
        | zero => simp [updateFirstSeg, hp]
        | succ i' =>
          have h2 := (hj2 f).2 i' (fun hh => hi (by rw [hh]))
          simp only [updateFirstSeg, hp, Bool.false_eq_true, if_false]
          simpa using h2

lemma updateFirstSeg_twice (p : Segment → Bool) (f g : Segment → Segment)
    (hp : ∀ s, p (f s) = p s) :
    ∀ l, updateFirstSeg p g (updateFirstSeg p f l) =
      updateFirstSeg p (fun s => g (f s)) l := by
  intro l
  induction l with
  | nil => rfl
  | cons s rest ih =>
    by_cases hps : p s = true
    · simp [updateFirstSeg, hps, hp s]
    · simp [updateFirstSeg, hps, ih]

/-- C8 counterexample: the story's only segment is currently
`'generating'`, yet `regenerateSegment` is not rejected — it returns
normally, performs one more video generation, and overwrites the
segment's state. -/
theorem processor_regenerate_guard_cx :
    ∃ r, regenerateSegment ("s1") (some Demo.genStory) 1 Demo.okResp = .ok r ∧
      r.videoCalls = 1 ∧ r.store.segments ≠ Demo.genStory.segments := by
  refine ⟨_, rfl, rfl, by decide⟩

/-- C8 as amended: `regenerateSegment` applies no status guard.  For a
segment found by id — whatever its current status, `'generating'`
included — it first saves the segment reset to `'generating'` with the
previously recorded error still in place, then re-runs exactly that
segment's video generation once (every other segment's entry is untouched,
and the story's top-level fields are unchanged), marking it completed
(clearing the error) on a success carrying a video path and failed
(recording the error) otherwise; only a missing story or segment is
rejected. -/
theorem processor_regenerate_no_guard (storyId : String) (story : StoryData)
    (segmentId : Nat) (video : GeminiVeoResponse) (seg : Segment)
    (hfind : story.segments.find? (fun s => s.id = segmentId) = some seg) :
    ∃ r j, regenerateSegment storyId (some story) segmentId video = .ok r ∧
      r.videoCalls = 1 ∧
      story.segments.get? j = some seg ∧
      (∃ m, r.saves.get? 0 = some m ∧
        m.segments.get? j = some { seg with status := "generating" } ∧
        (∀ i, i ≠ j → m.segments.get? i = story.segments.get? i)) ∧
      r.store.segments.get? j =
        some (regenSegmentResult storyId { seg with status := "generating" } video) ∧
      (∀ i, i ≠ j → r.store.segments.get? i = story.segments.get? i) ∧
      r.store.status = story.status ∧
      regenerateSegment storyId none segmentId video = .error ("Story not found") := by
  obtain ⟨j, hj, hupd⟩ := updateFirstSeg_find_spec _ story.segments seg hfind
  have hcomp := updateFirstSeg_twice (fun s => decide (s.id = segmentId))
    (fun s => { s with status := "generating" })
    (fun s => regenSegmentResult storyId s video) (fun s => rfl) story.segments
  let segsGen := updateFirstSeg (fun s => s.id = segmentId)
    (fun s => { s with status := "generating" }) story.segments
  let segsFin := updateFirstSeg (fun s => s.id = segmentId)
    (fun s => regenSegmentResult storyId { s with status := "generating" } video)
    story.segments
  refine ⟨{ store := { story with segments := segsFin },
            saves := [{ story with segments := segsGen },
              { story with segments := segsFin }],
            videoCalls := 1 }, j, ?_, rfl, hj, ?_, ?_, ?_, rfl, rfl⟩
  · simp only [regenerateSegment]
    rw [hfind, hcomp]
  · exact ⟨_, rfl,
      (hupd (fun s => { s with status := "generating" })).1,
      (hupd (fun s => { s with status := "generating" })).2⟩
  · exact (hupd (fun s =>
      regenSegmentResult storyId { s with status := "generating" } video)).1
  · exact (hupd (fun s =>
      regenSegmentResult storyId { s with status := "generating" } video)).2

end Processor

namespace Processor

open GeminiVeo

/-- Witness for the amended C8 at a concrete story whose segment had
previously failed with a recorded error. -/
theorem processor_regenerate_no_guard_witness :
    ∃ r j, regenerateSegment ("s1") (some Demo.pendingStory) 1 Demo.okResp = .ok r ∧
      r.videoCalls = 1 ∧
      Demo.pendingStory.segments.get? j = some Demo.pendingSeg ∧
      (∃ m, r.saves.get? 0 = some m ∧
        m.segments.get? j = some { Demo.pendingSeg with status := "generating" } ∧
        (∀ i, i ≠ j → m.segments.get? i = Demo.pendingStory.segments.get? i)) ∧
      r.store.segments.get? j =
        some (regenSegmentResult ("s1")
          { Demo.pendingSeg with status := "generating" } Demo.okResp) ∧
      (∀ i, i ≠ j → r.store.segments.get? i = Demo.pendingStory.segments.get? i) ∧
      r.store.status = Demo.pendingStory.status ∧
      regenerateSegment ("s1") none 1 Demo.okResp = .error ("Story not found") :=
  processor_regenerate_no_guard ("s1") Demo.pendingStory 1 Demo.okResp
    Demo.pendingSeg (by decide)

end Processor

namespace FileStorage

lemma toNat_ofNat_valid (n : Nat) (h : n < 55296) : (Char.ofNat n).toNat = n := by
  have hv : n.isValidChar := Or.inl h
  simp [Char.ofNat, hv, Char.ofNatAux, Char.toNat, UInt32.toNat, BitVec.toNat_ofNatLt]

lemma char_toNat_inj {c d : Char} (h : c.toNat = d.toNat) : c = d := by
  apply Char.eq_of_val_eq
  apply UInt32.toNat.inj
  exact h

lemma toLower_good (d : Char) (hA : isAllowedChar d = true)
    (hS : jsWhitespace d = false) : goodNameChar (Char.toLower d) := by
  have hA' := of_decide_eq_true hA
  unfold Char.toLower
  show goodNameChar
    (if d.toNat ≥ 65 ∧ d.toNat ≤ 90 then Char.ofNat (d.toNat + 32) else d)
  by_cases hcond : d.toNat ≥ 65 ∧ d.toNat ≤ 90
  · rw [if_pos hcond]
    obtain ⟨hc1, hc2⟩ := hcond
    left
    rw [toNat_ofNat_valid _ (by omega)]
    constructor <;> omega
  · rw [if_neg hcond]
    rcases hA' with h | h | h | h | h | h
    · exact Or.inl h
    · exact absurd (And.intro h.1 h.2) hcond
    · exact Or.inr (Or.inl h)
    · rw [hS] at h
      exact absurd h (by simp)
    · exact Or.inr (Or.inr (Or.inl (char_toNat_inj (by rw [h]; rfl))))
    · exact Or.inr (Or.inr (Or.inr (char_toNat_inj (by rw [h]; rfl))))

lemma mem_collapseWsAux (c : Char) :
    ∀ (l : List Char) (b : Bool), c ∈ collapseWsAux b l →
      c = '-' ∨ (c ∈ l ∧ jsWhitespace c = false) := by
  intro l
  induction l with
  | nil => intro b h; simp [collapseWsAux] at h
  | cons d rest ih =>
    intro b h
    rcases Bool.eq_false_or_eq_true (jsWhitespace d) with hd | hd
    · cases b
      · rw [show collapseWsAux false (d :: rest) = '-' :: collapseWsAux true rest from by
          simp [collapseWsAux, hd]] at h
        rcases List.mem_cons.mp h with h' | h'
        · exact Or.inl h'
        · rcases ih true h' with h'' | ⟨h1, h2⟩
          · exact Or.inl h''
          · exact Or.inr ⟨List.mem_cons_of_mem _ h1, h2⟩
      · rw [show collapseWsAux true (d :: rest) = collapseWsAux true rest from by
          simp [collapseWsAux, hd]] at h
        rcases ih true h with h'' | ⟨h1, h2⟩
        · exact Or.inl h''
        · exact Or.inr ⟨List.mem_cons_of_mem _ h1, h2⟩
    · rw [show collapseWsAux b (d :: rest) = d :: collapseWsAux false rest from by
        simp [collapseWsAux, hd]] at h
      rcases List.mem_cons.mp h with h' | h'
      · subst h'
        exact Or.inr ⟨List.mem_cons_self _ _, hd⟩
      · rcases ih false h' with h'' | ⟨h1, h2⟩
        · exact Or.inl h''
        · exact Or.inr ⟨List.mem_cons_of_mem _ h1, h2⟩

lemma goodNameChar_no_sep (c : Char) (h : goodNameChar c) :
    c ≠ '/' ∧ c ≠ '\\' ∧ c ≠ '.' := by
  have h47 : c.toNat ≠ 47 ∧ c.toNat ≠ 92 ∧ c.toNat ≠ 46 := by
    rcases h with ⟨h1, h2⟩ | ⟨h1, h2⟩ | h | h
    · omega
    · omega
    · subst h
      exact ⟨by decide, by decide, by decide⟩
    · subst h
      exact ⟨by decide, by decide, by decide⟩
  refine ⟨?_, ?_, ?_⟩ <;> intro heq <;> subst heq
  · exact h47.1 rfl
  · exact h47.2.1 rfl
  · exact h47.2.2 rfl

lemma sanitized_mem (l : List Char) (c : Char)
    (h : c ∈ (collapseWs (l.filter isAllowedChar)).map Char.toLower) :
    goodNameChar c := by
  obtain ⟨d, hd, rfl⟩ := List.mem_map.mp h
  rcases mem_collapseWsAux d _ false hd with h' | ⟨h1, h2⟩
  · subst h'
    rw [show Char.toLower '-' = '-' from rfl]
    exact Or.inr (Or.inr (Or.inl rfl))
  · exact toLower_good d (List.mem_filter.mp h1).2 h2

/-- C10.  Sanitized path components: for every input, `sanitizeStoryName`
returns at most 50 characters and `sanitizeSectionName` at most 30, each
drawn from lowercase ASCII letters, digits, hyphen and underscore only —
in particular no `/`, `\`, or `.`, so paths joined from these names cannot
escape the configured data directory. -/
theorem filestorage_sanitize_safe (cs : List Char) :
    (sanitizeStoryName cs).length ≤ 50 ∧
    (∀ c ∈ sanitizeStoryName cs, goodNameChar c ∧ c ≠ '/' ∧ c ≠ '\\' ∧ c ≠ '.') ∧
    (sanitizeSectionName cs).length ≤ 30 ∧
    (∀ c ∈ sanitizeSectionName cs, goodNameChar c ∧ c ≠ '/' ∧ c ≠ '\\' ∧ c ≠ '.') := by
  refine ⟨List.length_take_le _ _, ?_, List.length_take_le _ _, ?_⟩
  · intro c hc
    have hg := sanitized_mem (stripExtension cs) c (List.mem_of_mem_take hc)
    exact ⟨hg, goodNameChar_no_sep c hg⟩
  · intro c hc
    have hg := sanitized_mem cs c (List.mem_of_mem_take hc)
    exact ⟨hg, goodNameChar_no_sep c hg⟩

end FileStorage

namespace VideosRoute

lemma splitOnDash_no_dash : ∀ (l : List Char), '-' ∉ l → splitOnDash l = [l] := by
  intro l
  induction l with
  | nil => intro _; rfl
  | cons c cs ih =>
    intro h
    have hc : ¬(c = '-') := fun hh => h (hh ▸ List.mem_cons_self _ _)
    have hcs : '-' ∉ cs := fun hm => h (List.mem_cons_of_mem _ hm)
    simp only [splitOnDash, if_neg hc]
    rw [ih hcs]

lemma splitOnDash_append :
    ∀ (ds : List Char), '-' ∉ ds → ∀ (de : List Char),
      splitOnDash (ds ++ '-' :: de) = ds :: splitOnDash de := by
  intro ds
  induction ds with
  | nil => intro _ de; simp [splitOnDash]
  | cons c cs ih =>
    intro h de
    have hc : ¬(c = '-') := fun hh => h (hh ▸ List.mem_cons_self _ _)
    have hcs : '-' ∉ cs := fun hm => h (List.mem_cons_of_mem _ hm)
    simp only [List.cons_append, splitOnDash, if_neg hc]
    rw [show cs.append ('-' :: de) = cs ++ '-' :: de from rfl, ih hcs de]

lemma all_digits_no_dash (l : List Char) (hd : l.all Char.isDigit = true) :
    '-' ∉ l := by
  intro hm
  have h := List.all_eq_true.mp hd '-' hm
  exact absurd h (by decide)

lemma parseIntChars_digits (l : List Char) (hne : l ≠ [])
    (hd : l.all Char.isDigit = true) :
    parseIntChars l = some (digitsVal 0 l) := by
  cases l with
  | nil => exact absurd rfl hne
  | cons c cs =>
    have hc : c.isDigit = true := List.all_eq_true.mp hd c (List.mem_cons_self _ _)
    simp [parseIntChars, hc]

lemma dropRangeUnit_append (rest : List Char) :
    dropRangeUnit (rangeUnitTag ++ rest) = rest := by
  have htake : (rangeUnitTag ++ rest).take 6 = rangeUnitTag := List.take_left' rfl
  have hdrop : (rangeUnitTag ++ rest).drop 6 = rest := List.drop_left' rfl
  simp [dropRangeUnit, htake, hdrop]

/-- C7.  Range-read semantics: for a stored file of `N` bytes, a request
with header `bytes=s-e` (`s ≤ e < N`, digits) is answered `206` with
`Content-Range: bytes s-e/N`, `Accept-Ranges: bytes`, `Content-Length`
`e-s+1` and exactly the `e-s+1` bytes `s..e`; without a `Range` header the
whole file is answered `200` with `Content-Length N`. -/
theorem videos_range_read (file : List Nat) (ds de : List Char) (s e : Nat)
    (hds : ds ≠ [] ∧ ds.all Char.isDigit = true) (hdsv : digitsVal 0 ds = s)
    (hde : de ≠ [] ∧ de.all Char.isDigit = true) (hdev : digitsVal 0 de = e)
    (hse : s ≤ e) (heN : e < file.length) :
    streamVideo file (some (rangeUnitTag ++ (ds ++ '-' :: de))) =
      { status := 206,
        contentRange := some ("bytes " ++ toString s ++ "-" ++ toString e ++ "/"
          ++ toString file.length),
        acceptRanges := some ("bytes"),
        contentLength := e - s + 1,
        body := (file.drop s).take (e - s + 1) } ∧
    ((file.drop s).take (e - s + 1)).length = e - s + 1 ∧
    streamVideo file none =
      { status := 200, contentLength := file.length, body := file } := by
  obtain ⟨hdne, hdall⟩ := hds
  obtain ⟨hene, heall⟩ := hde
  refine ⟨?_, ?_, rfl⟩
  · have hsplit : splitOnDash (dropRangeUnit (rangeUnitTag ++ (ds ++ '-' :: de))) =
        [ds, de] := by
      rw [dropRangeUnit_append, splitOnDash_append ds (all_digits_no_dash ds hdall) de,
        splitOnDash_no_dash de (all_digits_no_dash de heall)]
    have hde' : de.isEmpty = false := by
      cases de
      · exact absurd rfl hene
      · rfl
    simp only [streamVideo, hsplit]
    rw [show ([ds, de].getD 0 []) = ds from rfl]
    rw [parseIntChars_digits ds hdne hdall, hdsv]
    rw [show ([ds, de].getD 1 []) = de from rfl]
    rw [hde']
    rw [parseIntChars_digits de hene heall, hdev]
    rfl
  · rw [List.length_take, List.length_drop]
    omega

/-- Witness for C7: bytes `[2, 5]` of a 10-byte file. -/
theorem videos_range_read_witness :
    streamVideo [10, 11, 12, 13, 14, 15, 16, 17, 18, 19]
        (some (rangeUnitTag ++ (['2'] ++ '-' :: ['5']))) =
      { status := 206,
        contentRange := some ("bytes " ++ toString 2 ++ "-" ++ toString 5 ++ "/"
          ++ toString ([10, 11, 12, 13, 14, 15, 16, 17, 18, 19] : List Nat).length),
        acceptRanges := some ("bytes"),
        contentLength := 5 - 2 + 1,
        body := (([10, 11, 12, 13, 14, 15, 16, 17, 18, 19] : List Nat).drop 2).take
          (5 - 2 + 1) } ∧
    ((([10, 11, 12, 13, 14, 15, 16, 17, 18, 19] : List Nat).drop 2).take
        (5 - 2 + 1)).length = 5 - 2 + 1 ∧
    streamVideo [10, 11, 12, 13, 14, 15, 16, 17, 18, 19] none =
      { status := 200,
        contentLength := ([10, 11, 12, 13, 14, 15, 16, 17, 18, 19] : List Nat).length,
        body := [10, 11, 12, 13, 14, 15, 16, 17, 18, 19] } :=
  videos_range_read [10, 11, 12, 13, 14, 15, 16, 17, 18, 19] ['2'] ['5'] 2 5
    ⟨by decide, by decide⟩ (by decide) ⟨by decide, by decide⟩ (by decide)
    (by decide) (by decide)

end VideosRoute
